import Mathlib

/-!
Verification of the block-quantization codec spec of the candle repository.

The repository sources available are `src/storage.rs` (the dense `Storage`
dispatch scaffolding) and `candle-core/tests/quantized_tests.rs` (the test
harness for the quantization codecs).  The codec implementations themselves
(`k_quants`) are not part of the source tree, so the codecs are modelled
from the specification: exact rational arithmetic stands in for IEEE f32
where the concrete computations settled below are exact, and scales pass
through an explicit binary16 (f16) rounding step as the spec requires.
-/

namespace Candle

/-! ## Rounding primitives -/

/-- Rust `f32::round`: round half away from zero, as used by the spec's
`round(x / d)` quantization steps. -/
def roundAway (x : ℚ) : ℤ :=
  if 0 ≤ x then ⌊x + 1 / 2⌋ else -⌊1 / 2 - x⌋

/-- Clamp an integer to the inclusive range `[lo, hi]`. -/
def clampZ (lo hi v : ℤ) : ℤ := max lo (min hi v)

/-- Round to the nearest integer, ties to even (IEEE default rounding). -/
def roundHalfEven (x : ℚ) : ℤ :=
  let n := ⌊x⌋
  let f := x - (n : ℚ)
  if f < 1 / 2 then n
  else if 1 / 2 < f then n + 1
  else if n % 2 = 0 then n else n + 1

/-- `2 ^ e` as a rational, for a possibly negative exponent. -/
def pow2Z (e : ℤ) : ℚ :=
  if 0 ≤ e then ((2 ^ e.toNat : ℕ) : ℚ) else ((2 ^ (-e).toNat : ℕ) : ℚ)⁻¹

/-- Largest exponent `e` in `[emin, emax]` with `2 ^ e ≤ a`
(returns `emin` when `a < 2 ^ emin`, i.e. in the subnormal range). -/
def floorLog2 (emin emax : ℤ) (a : ℚ) : ℤ :=
  (List.range ((emax - emin).toNat + 1)).foldl
    (fun acc i => if pow2Z (emin + i) ≤ a then emin + i else acc) emin

/-- Modelled from the spec: round a real scale to the nearest representable
binary floating-point value with `mbits` mantissa bits and (unbiased)
exponent range `[emin, emax]`, ties to even; subnormals are included.
Values beyond the top binade keep the top binade's quantum (the claims
settled here never reach the overflow range, so infinities are not
modelled). -/
def roundFP (mbits : ℕ) (emin emax : ℤ) (x : ℚ) : ℚ :=
  if x = 0 then 0
  else
    let a := |x|
    let e := floorLog2 emin emax a
    let q := pow2Z (e - (mbits : ℤ))
    let m := roundHalfEven (a / q)
    (if x < 0 then -1 else 1) * (m : ℚ) * q

/-- IEEE binary16 rounding (10 mantissa bits, exponents −14 … 15),
used for all stored `f16` scales and mins. -/
def roundF16 (x : ℚ) : ℚ := roundFP 10 (-14) 15 x

/-- IEEE binary32 rounding (23 mantissa bits, exponents −126 … 127),
used for the Q8K `f32` scale. -/
def roundF32 (x : ℚ) : ℚ := roundFP 23 (-126) 127 x

/-! ## List helpers -/

/-- Fuel-driven worker for `chunks` (structural recursion on the fuel so
that the definition reduces inside the kernel). -/
def chunksAux {α : Type} : ℕ → ℕ → List α → List (List α)
  | 0, _, _ => []
  | _, _, [] => []
  | fuel + 1, n, x :: xs => (x :: xs).take n :: chunksAux fuel n ((x :: xs).drop n)

/-- Split a list into consecutive chunks of `n` elements (the last chunk is
shorter when `n` does not divide the length; callers establish
divisibility). -/
def chunks {α : Type} (n : ℕ) (xs : List α) : List (List α) :=
  chunksAux xs.length n xs

/-- Signed value of maximal absolute value, first occurrence winning ties;
`0` on the empty list (mirrors the GGML `amax` selection the spec
describes for the symmetric formats). -/
def amaxSel (xs : List ℚ) : ℚ :=
  xs.foldl (fun acc v => if |acc| < |v| then v else acc) 0

/-- Minimum of a list of rationals (`0` on the empty list). -/
def minSel (xs : List ℚ) : ℚ :=
  match xs with
  | [] => 0
  | x :: rest => rest.foldl min x

/-- Maximum of a list of rationals (`0` on the empty list). -/
def maxSel (xs : List ℚ) : ℚ :=
  match xs with
  | [] => 0
  | x :: rest => rest.foldl max x

/-! ## Flat block codecs (32-element blocks), modelled from the spec -/

/-- Modelled from the spec: a Q4_0 block — `d : f16` scale (kept as the
exact rational value of the stored f16) and 32 four-bit codes. -/
structure BlockQ4_0 where
  d : ℚ
  qs : List ℤ
deriving DecidableEq

/-- Modelled from the spec (§4.2 Q4_0 encode): `amax` = value of maximal
absolute value, `d = amax / −8`, `qᵢ = clamp(round(xᵢ/d) + 8, 0, 15)`
(`qᵢ = 8` when `d = 0`); `d` is stored as f16. -/
def BlockQ4_0.fromFloatBlock (xs : List ℚ) : BlockQ4_0 :=
  let amax := amaxSel xs
  let d0 := amax / (-8)
  { d := roundF16 d0
    qs := xs.map (fun x => if d0 = 0 then 8 else clampZ 0 15 (roundAway (x / d0) + 8)) }

/-- Modelled from the spec (§4.2 Q4_0 decode): emit `(q − 8) · d`. -/
def BlockQ4_0.toFloatBlock (b : BlockQ4_0) : List ℚ :=
  b.qs.map (fun q => ((q : ℚ) - 8) * b.d)

/-- Q4_0 `from_float` over a whole vector: one block per 32 elements. -/
def BlockQ4_0.fromFloat (xs : List ℚ) : List BlockQ4_0 :=
  (chunks 32 xs).map BlockQ4_0.fromFloatBlock

/-- Q4_0 `to_float` over a whole vector of blocks. -/
def BlockQ4_0.toFloat (bs : List BlockQ4_0) : List ℚ :=
  (bs.map BlockQ4_0.toFloatBlock).flatten

/-- Q4_0 round-trip `to_float (from_float x)`. -/
def q4_0RoundTrip (xs : List ℚ) : List ℚ :=
  BlockQ4_0.toFloat (BlockQ4_0.fromFloat xs)

/-- Modelled from the spec: a Q4_1 block — `d, m : f16` and 32 four-bit
codes. -/
structure BlockQ4_1 where
  d : ℚ
  m : ℚ
  qs : List ℤ
deriving DecidableEq

/-- Modelled from the spec (§4.2 Q4_1 encode): `min = min(x)`,
`max = max(x)`, `d = (max − min)/15`,
`qᵢ = clamp(round((xᵢ − min)/d), 0, 15)`; `d` and `min` stored as f16. -/
def BlockQ4_1.fromFloatBlock (xs : List ℚ) : BlockQ4_1 :=
  let mn := minSel xs
  let mx := maxSel xs
  let d0 := (mx - mn) / 15
  { d := roundF16 d0
    m := roundF16 mn
    qs := xs.map (fun x => if d0 = 0 then 0 else clampZ 0 15 (roundAway ((x - mn) / d0))) }

/-- Q4_1 decode: emit `q · d + m`. -/
def BlockQ4_1.toFloatBlock (b : BlockQ4_1) : List ℚ :=
  b.qs.map (fun q => (q : ℚ) * b.d + b.m)

/-- Modelled from the spec: a Q5_0 block — `d : f16` and 32 five-bit
codes (low nibble plus high-bit plane in the byte layout). -/
structure BlockQ5_0 where
  d : ℚ
  qs : List ℤ
deriving DecidableEq

/-- Modelled from the spec (§4.2, "Q5_0 identical to the Q4 variant but
with 5 bits"): `d = amax / −16`, `qᵢ = clamp(round(xᵢ/d) + 16, 0, 31)`
(`qᵢ = 16` when `d = 0`); `d` stored as f16. -/
def BlockQ5_0.fromFloatBlock (xs : List ℚ) : BlockQ5_0 :=
  let amax := amaxSel xs
  let d0 := amax / (-16)
  { d := roundF16 d0
    qs := xs.map (fun x => if d0 = 0 then 16 else clampZ 0 31 (roundAway (x / d0) + 16)) }

/-- Q5_0 decode: emit `(q − 16) · d`. -/
def BlockQ5_0.toFloatBlock (b : BlockQ5_0) : List ℚ :=
  b.qs.map (fun q => ((q : ℚ) - 16) * b.d)

/-- Modelled from the spec: a Q5_1 block — `d, m : f16` and 32 five-bit
codes. -/
structure BlockQ5_1 where
  d : ℚ
  m : ℚ
  qs : List ℤ
deriving DecidableEq

/-- Modelled from the spec (§4.2, "Q5_1 identical to the Q4 variant but
with 5 bits"): `d = (max − min)/31`,
`qᵢ = clamp(round((xᵢ − min)/d), 0, 31)`; `d` and `min` stored as f16. -/
def BlockQ5_1.fromFloatBlock (xs : List ℚ) : BlockQ5_1 :=
  let mn := minSel xs
  let mx := maxSel xs
  let d0 := (mx - mn) / 31
  { d := roundF16 d0
    m := roundF16 mn
    qs := xs.map (fun x => if d0 = 0 then 0 else clampZ 0 31 (roundAway ((x - mn) / d0))) }

/-- Q5_1 decode: emit `q · d + m`. -/
def BlockQ5_1.toFloatBlock (b : BlockQ5_1) : List ℚ :=
  b.qs.map (fun q => (q : ℚ) * b.d + b.m)

/-- Q5_1 `from_float` over a whole vector: one block per 32 elements. -/
def BlockQ5_1.fromFloat (xs : List ℚ) : List BlockQ5_1 :=
  (chunks 32 xs).map BlockQ5_1.fromFloatBlock

/-- Q5_1 `to_float` over a whole vector of blocks. -/
def BlockQ5_1.toFloat (bs : List BlockQ5_1) : List ℚ :=
  (bs.map BlockQ5_1.toFloatBlock).flatten

/-- Q5_1 round-trip `to_float (from_float x)`. -/
def q5_1RoundTrip (xs : List ℚ) : List ℚ :=
  BlockQ5_1.toFloat (BlockQ5_1.fromFloat xs)

/-- Modelled from the spec: a Q8_0 block — `d : f16` and 32 signed
eight-bit codes. -/
structure BlockQ8_0 where
  d : ℚ
  qs : List ℤ
deriving DecidableEq

/-- Modelled from the spec (§4.2 Q8_0): `d = amax/127` (`amax` as an
absolute magnitude), `qᵢ = clamp(round(xᵢ/d), −128, 127)` stored as
int8; `d` stored as f16. -/
def BlockQ8_0.fromFloatBlock (xs : List ℚ) : BlockQ8_0 :=
  let d0 := |amaxSel xs| / 127
  { d := roundF16 d0
    qs := xs.map (fun x => if d0 = 0 then 0 else clampZ (-128) 127 (roundAway (x / d0))) }

/-- Q8_0 decode: emit `q · d`. -/
def BlockQ8_0.toFloatBlock (b : BlockQ8_0) : List ℚ :=
  b.qs.map (fun q => (q : ℚ) * b.d)

/-- The integer ramp `[0, 1, …, n−1]` as rationals, the input of the
`quantize_q4_0` and `quantize_q5_1` source tests. -/
def rampQ (n : ℕ) : List ℚ := (List.range n).map (fun i => (i : ℚ))

/-- The literal 128-element vector asserted by the `quantize_q4_0` source
test (signed zeros are identified with `0`, as `f32` equality does). -/
def q4_0ExpectedRamp : List ℚ :=
  List.replicate 2 0 ++ List.replicate 4 (31 / 8) ++ List.replicate 4 (31 / 4) ++
  List.replicate 4 (93 / 8) ++ List.replicate 4 (31 / 2) ++ List.replicate 4 (155 / 8) ++
  List.replicate 4 (93 / 4) ++ List.replicate 4 (217 / 8) ++ List.replicate 2 31 ++
  List.replicate 4 (63 / 2) ++ List.replicate 8 (315 / 8) ++ List.replicate 8 (189 / 4) ++
  List.replicate 8 (441 / 8) ++ List.replicate 4 63 ++
  List.replicate 2 (475 / 8) ++ List.replicate 12 (285 / 4) ++ List.replicate 12 (665 / 8) ++
  List.replicate 6 95 ++
  List.replicate 8 (381 / 4) ++ List.replicate 16 (889 / 8) ++ List.replicate 8 127

/-! ## Byte-level block serialization (§6 layout table)

All layouts are little-endian byte lists; every segment is produced by a
`List.range` map so its length is fixed by the layout, as the spec's byte
counts require. -/

/-- Two little-endian bytes of a natural number. -/
def bytes2 (n : ℕ) : List ℕ := [n % 256, n / 256 % 256]

/-- Bit pattern of an already-rounded binary floating-point value with
`mbits` mantissa bits, `ebits` exponent bits and exponent range
`[emin, emax]` (bias `emax`); subnormals included, overflow not modelled
(the serialized scales stay in the finite range). -/
def fpBits (mbits ebits : ℕ) (emin emax : ℤ) (x : ℚ) : ℕ :=
  if x = 0 then 0
  else
    let sign : ℕ := if x < 0 then 2 ^ (mbits + ebits) else 0
    let a := |x|
    let e := floorLog2 emin emax a
    let mi := (⌊a / pow2Z (e - (mbits : ℤ))⌋).toNat
    if mi < 2 ^ mbits then sign + mi
    else sign + (e + emax).toNat * 2 ^ mbits + (mi - 2 ^ mbits)

/-- Little-endian bytes of an `f16` scale (2 bytes). -/
def f16bytes (x : ℚ) : List ℕ := bytes2 (fpBits 10 5 (-14) 15 x)

/-- Little-endian bytes of an `f32` scale (4 bytes), used by Q8K. -/
def f32bytes (x : ℚ) : List ℕ :=
  let b := fpBits 23 8 (-126) 127 x
  [b % 256, b / 256 % 256, b / 65536 % 256, b / 16777216 % 256]

/-- Two's-complement byte of a signed integer code. -/
def i8byte (z : ℤ) : ℕ := (z % 256).toNat

/-- Nonnegative code at index `i` of a code list (0 when out of range). -/
def codeAt (qs : List ℤ) (i : ℕ) : ℕ := (qs.getD i 0).toNat

/-- Pack 32 codes as 16 nibble-pair bytes `(q[i] & 0xF) | (q[i+16] << 4)`
(§4.2 step 4; for the 5-bit formats this keeps the low nibbles, the high
bits going to the separate mask). -/
def packNibbles (qs : List ℤ) : List ℕ :=
  (List.range 16).map (fun i => codeAt qs i % 16 + codeAt qs (i + 16) % 16 * 16)

/-- Pack the high (fifth) bit of 32 codes into a 4-byte little-endian mask
in index order (§4.2, Q5 variants). -/
def packHighBits (qs : List ℤ) : List ℕ :=
  (List.range 4).map (fun b =>
    (List.range 8).foldl (fun acc j => acc + codeAt qs (8 * b + j) / 16 % 2 * 2 ^ j) 0)

/-- Q4_0 block bytes: `d : f16` ‖ 16 nibble pairs (18 bytes). -/
def serializeQ4_0 (b : BlockQ4_0) : List ℕ :=
  f16bytes b.d ++ packNibbles b.qs

/-- Q4_1 block bytes: `d, m : f16` ‖ 16 nibble pairs (20 bytes). -/
def serializeQ4_1 (b : BlockQ4_1) : List ℕ :=
  f16bytes b.d ++ f16bytes b.m ++ packNibbles b.qs

/-- Q5_0 block bytes: `d : f16` ‖ `hi_bits : u32` ‖ 16 nibble pairs
(22 bytes). -/
def serializeQ5_0 (b : BlockQ5_0) : List ℕ :=
  f16bytes b.d ++ packHighBits b.qs ++ packNibbles b.qs

/-- Q5_1 block bytes: `d, m : f16` ‖ `hi_bits : u32` ‖ 16 nibble pairs
(24 bytes). -/
def serializeQ5_1 (b : BlockQ5_1) : List ℕ :=
  f16bytes b.d ++ f16bytes b.m ++ packHighBits b.qs ++ packNibbles b.qs

/-- Q8_0 block bytes: `d : f16` ‖ 32 signed bytes (34 bytes). -/
def serializeQ8_0 (b : BlockQ8_0) : List ℕ :=
  f16bytes b.d ++ (List.range 32).map (fun i => i8byte (b.qs.getD i 0))

/-! ## Super-block K codecs (256-element blocks), modelled from the spec

The spec (§4.3) pins the super-block layouts, the two-level scale
reconstruction and the quantization formulas, but describes the sub-block
scale search only as an under-determined iterative refinement; these
models use the refinement's seed (the min/max range of each sub-block,
§4.3 step 1) directly.  The byte-layout claims settled against these
encoders do not depend on the chosen scale values. -/

/-- The 16-value sub-slice of a super-block: values `[s·len, s·len+len)`. -/
def subSlice (xs : List ℚ) (s len : ℕ) : List ℚ :=
  (xs.drop (s * len)).take len

/-- Pack 2-bit codes, four per byte in index order (`nbytes` bytes). -/
def pack2bit (vs : List ℕ) (nbytes : ℕ) : List ℕ :=
  (List.range nbytes).map (fun i =>
    (List.range 4).foldl (fun acc j => acc + vs.getD (4 * i + j) 0 % 4 * 4 ^ j) 0)

/-- Pack 4-bit codes, two per byte in index order (`nbytes` bytes). -/
def pack4bit (vs : List ℕ) (nbytes : ℕ) : List ℕ :=
  (List.range nbytes).map (fun i =>
    vs.getD (2 * i) 0 % 16 + vs.getD (2 * i + 1) 0 % 16 * 16)

/-- Pack 16 six-bit values into 12 bytes, bit-sequentially in index
order. -/
def pack6bit16 (vs : List ℕ) : List ℕ :=
  (List.range 12).map (fun k =>
    (List.range 8).foldl
      (fun acc j => acc + vs.getD ((8 * k + j) / 6) 0 / 2 ^ ((8 * k + j) % 6) % 2 * 2 ^ j) 0)

/-- Modelled from the spec: a Q2K super-block — 16 four-bit sub-scales,
16 four-bit sub-mins, 256 two-bit codes and top-level `d, dmin : f16`. -/
structure BlockQ2K where
  d : ℚ
  dmin : ℚ
  scales : List ℕ
  mins : List ℕ
  qs : List ℕ
deriving DecidableEq

/-- Modelled from the spec (§4.3, Q2K): per 16-element sub-block a seed
min `mₛ = max(0, −min x)` and scale `(max x + mₛ)/3`; top scales
`d = max scaleₛ / 15`, `dmin = max mₛ / 15` stored as f16; 4-bit
sub-scales and sub-mins; `qᵢ = clamp(round((xᵢ + mₛ)/dₛ), 0, 3)`. -/
def BlockQ2K.fromFloatBlock (xs : List ℚ) : BlockQ2K :=
  let subMin := fun s => max 0 (-(minSel (subSlice xs s 16)))
  let subScale := fun s => (maxSel (subSlice xs s 16) + subMin s) / 3
  let d0 := maxSel ((List.range 16).map subScale) / 15
  let m0 := maxSel ((List.range 16).map subMin) / 15
  let scales := (List.range 16).map (fun s =>
    if d0 = 0 then 0 else (clampZ 0 15 (roundAway (subScale s / d0))).toNat)
  let mins := (List.range 16).map (fun s =>
    if m0 = 0 then 0 else (clampZ 0 15 (roundAway (subMin s / m0))).toNat)
  { d := roundF16 d0
    dmin := roundF16 m0
    scales := scales
    mins := mins
    qs := (List.range 256).map (fun i =>
      let s := i / 16
      let ds := d0 * ((scales.getD s 0 : ℕ) : ℚ)
      let ms := m0 * ((mins.getD s 0 : ℕ) : ℚ)
      if ds = 0 then 0 else (clampZ 0 3 (roundAway ((xs.getD i 0 + ms) / ds))).toNat) }

/-- Q2K block bytes (§6): 16 packed 4-bit scales ‖ 16 packed 4-bit mins ‖
64 bytes of 2-bit codes ‖ `d, dmin : f16` (84 bytes). -/
def serializeQ2K (b : BlockQ2K) : List ℕ :=
  pack4bit b.scales 8 ++ pack4bit b.mins 8 ++ pack2bit b.qs 64 ++
  f16bytes b.d ++ f16bytes b.dmin

/-- Modelled from the spec: a Q3K super-block — 16 signed six-bit
sub-scales, 256 three-bit codes (2 low bits plus an inverted high-bit
plane) and a top-level `d : f16`. -/
structure BlockQ3K where
  d : ℚ
  scales : List ℤ
  qs : List ℕ
deriving DecidableEq

/-- Modelled from the spec (§4.3, Q3K, symmetric signed): per sub-block
seed scale `dₛ = amaxₛ / −4`; `d = max|dₛ|/31`; signed 6-bit sub-scales;
codes `clamp(round(xᵢ/(d·scₛ)), −4, 3) + 4` stored as 3-bit values. -/
def BlockQ3K.fromFloatBlock (xs : List ℚ) : BlockQ3K :=
  let subD := fun s => amaxSel (subSlice xs s 16) / (-4)
  let d0 := maxSel ((List.range 16).map (fun s => |subD s|)) / 31
  let scales := (List.range 16).map (fun s =>
    if d0 = 0 then 0 else clampZ (-32) 31 (roundAway (subD s / d0)))
  { d := roundF16 d0
    scales := scales
    qs := (List.range 256).map (fun i =>
      let ds := d0 * ((scales.getD (i / 16) 0 : ℤ) : ℚ)
      if ds = 0 then 4
      else (clampZ (-4) 3 (roundAway (xs.getD i 0 / ds)) + 4).toNat) }

/-- Q3K block bytes (§6): 32-byte inverted high-bit plane ‖ 64 bytes of
2-bit codes ‖ 12 bytes of packed 6-bit scales ‖ `d : f16` (110 bytes);
a stored high bit of 1 selects the low three-bit codebook value (§4.3). -/
def serializeQ3K (b : BlockQ3K) : List ℕ :=
  (List.range 32).map (fun i =>
    (List.range 8).foldl (fun acc j => acc + (1 - b.qs.getD (8 * i + j) 0 / 4 % 2) * 2 ^ j) 0) ++
  pack2bit b.qs 64 ++
  pack6bit16 (b.scales.map (fun z => (z % 64).toNat)) ++
  f16bytes b.d

/-- Modelled from the spec: a Q4K super-block — top `d, dmin : f16`, 6-bit
sub-scales and sub-mins packed into 12 bytes, 256 four-bit codes.  The
12-byte scale area holds 16 six-bit values, i.e. 8 sub-blocks of 32
elements each with one scale and one min (the byte layout of §6 is the
binding contract). -/
structure BlockQ4K where
  d : ℚ
  dmin : ℚ
  scales : List ℕ
  mins : List ℕ
  qs : List ℕ
deriving DecidableEq

/-- Modelled from the spec (§4.3, Q4K): per 32-element sub-block a seed
min and scale from the min/max range; `d = max dₛ / 63`,
`dmin = max mₛ / 63`; `qᵢ = clamp(round((xᵢ + mₛ)/dₛ), 0, 15)`. -/
def BlockQ4K.fromFloatBlock (xs : List ℚ) : BlockQ4K :=
  let subMin := fun s => max 0 (-(minSel (subSlice xs s 32)))
  let subScale := fun s => (maxSel (subSlice xs s 32) + subMin s) / 15
  let d0 := maxSel ((List.range 8).map subScale) / 63
  let m0 := maxSel ((List.range 8).map subMin) / 63
  let scales := (List.range 8).map (fun s =>
    if d0 = 0 then 0 else (clampZ 0 63 (roundAway (subScale s / d0))).toNat)
  let mins := (List.range 8).map (fun s =>
    if m0 = 0 then 0 else (clampZ 0 63 (roundAway (subMin s / m0))).toNat)
  { d := roundF16 d0
    dmin := roundF16 m0
    scales := scales
    mins := mins
    qs := (List.range 256).map (fun i =>
      let s := i / 32
      let ds := d0 * ((scales.getD s 0 : ℕ) : ℚ)
      let ms := m0 * ((mins.getD s 0 : ℕ) : ℚ)
      if ds = 0 then 0 else (clampZ 0 15 (roundAway ((xs.getD i 0 + ms) / ds))).toNat) }

/-- Q4K block bytes (§6): `d, dmin : f16` ‖ 12 bytes of packed 6-bit
scales and mins ‖ 128 bytes of 4-bit codes (144 bytes). -/
def serializeQ4K (b : BlockQ4K) : List ℕ :=
  f16bytes b.d ++ f16bytes b.dmin ++ pack6bit16 (b.scales ++ b.mins) ++ pack4bit b.qs 128

/-- Modelled from the spec: a Q5K super-block — like Q4K with five-bit
codes, the high bits going to a 32-byte plane. -/
structure BlockQ5K where
  d : ℚ
  dmin : ℚ
  scales : List ℕ
  mins : List ℕ
  qs : List ℕ
deriving DecidableEq

/-- Modelled from the spec (§4.3, Q5K): as Q4K but with 5-bit codes
(`…/31`, clamp to `[0, 31]`). -/
def BlockQ5K.fromFloatBlock (xs : List ℚ) : BlockQ5K :=
  let subMin := fun s => max 0 (-(minSel (subSlice xs s 32)))
  let subScale := fun s => (maxSel (subSlice xs s 32) + subMin s) / 31
  let d0 := maxSel ((List.range 8).map subScale) / 63
  let m0 := maxSel ((List.range 8).map subMin) / 63
  let scales := (List.range 8).map (fun s =>
    if d0 = 0 then 0 else (clampZ 0 63 (roundAway (subScale s / d0))).toNat)
  let mins := (List.range 8).map (fun s =>
    if m0 = 0 then 0 else (clampZ 0 63 (roundAway (subMin s / m0))).toNat)
  { d := roundF16 d0
    dmin := roundF16 m0
    scales := scales
    mins := mins
    qs := (List.range 256).map (fun i =>
      let s := i / 32
      let ds := d0 * ((scales.getD s 0 : ℕ) : ℚ)
      let ms := m0 * ((mins.getD s 0 : ℕ) : ℚ)
      if ds = 0 then 0 else (clampZ 0 31 (roundAway ((xs.getD i 0 + ms) / ds))).toNat) }

/-- Q5K block bytes (§6): `d, dmin : f16` ‖ 12 bytes of packed scales and
mins ‖ 32-byte high-bit plane ‖ 128 bytes of 4-bit codes (176 bytes). -/
def serializeQ5K (b : BlockQ5K) : List ℕ :=
  f16bytes b.d ++ f16bytes b.dmin ++ pack6bit16 (b.scales ++ b.mins) ++
  (List.range 32).map (fun i =>
    (List.range 8).foldl (fun acc j => acc + b.qs.getD (8 * i + j) 0 / 16 % 2 * 2 ^ j) 0) ++
  pack4bit b.qs 128

/-- Modelled from the spec: a Q6K super-block — 16 signed int8 sub-scales,
256 six-bit codes (stored as `q + 32 ∈ [0, 63]`) and a top `d : f16`. -/
structure BlockQ6K where
  d : ℚ
  scales : List ℤ
  qs : List ℕ
deriving DecidableEq

/-- Modelled from the spec (§4.3, Q6K, symmetric signed 6-bit): per
sub-block seed scale `dₛ = amaxₛ / −32`; `d = max|dₛ|/127`; int8
sub-scales; codes `clamp(round(xᵢ/(d·scₛ)), −32, 31) + 32`. -/
def BlockQ6K.fromFloatBlock (xs : List ℚ) : BlockQ6K :=
  let subD := fun s => amaxSel (subSlice xs s 16) / (-32)
  let d0 := maxSel ((List.range 16).map (fun s => |subD s|)) / 127
  let scales := (List.range 16).map (fun s =>
    if d0 = 0 then 0 else clampZ (-128) 127 (roundAway (subD s / d0)))
  { d := roundF16 d0
    scales := scales
    qs := (List.range 256).map (fun i =>
      let ds := d0 * ((scales.getD (i / 16) 0 : ℤ) : ℚ)
      if ds = 0 then 32
      else (clampZ (-32) 31 (roundAway (xs.getD i 0 / ds)) + 32).toNat) }

/-- Q6K block bytes (§6): 128 bytes of low 4-bit codes ‖ 64 bytes of high
2-bit codes ‖ 16 int8 sub-scales ‖ `d : f16` (210 bytes). -/
def serializeQ6K (b : BlockQ6K) : List ℕ :=
  pack4bit b.qs 128 ++
  (List.range 64).map (fun i =>
    (List.range 4).foldl (fun acc j => acc + b.qs.getD (4 * i + j) 0 / 16 % 4 * 4 ^ j) 0) ++
  (List.range 16).map (fun s => i8byte (b.scales.getD s 0)) ++
  f16bytes b.d

/-- Modelled from the spec: a Q8K super-block — `d : f32`, 256 signed int8
codes, and the 16 precomputed int16 sub-block code sums used by the dot
product. -/
structure BlockQ8K where
  d : ℚ
  qs : List ℤ
  bsums : List ℤ
deriving DecidableEq

/-- Modelled from the spec (§4.3, Q8K): `d = amax/127` stored as f32,
`qᵢ = clamp(round(xᵢ/d), −128, 127)`, and
`bsumsⱼ = Σᵢ q(16j+i)` per 16-element sub-block. -/
def BlockQ8K.fromFloatBlock (xs : List ℚ) : BlockQ8K :=
  let d0 := |amaxSel xs| / 127
  let qs := (List.range 256).map (fun i =>
    if d0 = 0 then 0 else clampZ (-128) 127 (roundAway (xs.getD i 0 / d0)))
  { d := roundF32 d0
    qs := qs
    bsums := (List.range 16).map (fun s =>
      (List.range 16).foldl (fun acc j => acc + qs.getD (16 * s + j) 0) 0) }

/-- Q8K block bytes (§6): `d : f32` ‖ 256 signed int8 codes ‖ 16
little-endian int16 sub-block sums (292 bytes). -/
def serializeQ8K (b : BlockQ8K) : List ℕ :=
  f32bytes b.d ++
  (List.range 256).map (fun i => i8byte (b.qs.getD i 0)) ++
  (List.range 32).map (fun k => ((b.bsums.getD (k / 2) 0) % 65536).toNat / 256 ^ (k % 2) % 256)

/-! ## Format descriptors and whole-vector encoding (§4.1, §6) -/

/-- The format tags of the quantization family (source `GgmlDType`,
restricted to the block formats in the spec's §6 table). -/
inductive GgmlDType where
  | Q4_0 | Q4_1 | Q5_0 | Q5_1 | Q8_0
  | Q2K | Q3K | Q4K | Q5K | Q6K | Q8K
deriving DecidableEq

/-- `block_len` of each format: 32 for the flat formats, 256 for the
super-block K formats (§3, §6). -/
def blockLen : GgmlDType → ℕ
  | .Q4_0 => 32 | .Q4_1 => 32 | .Q5_0 => 32 | .Q5_1 => 32 | .Q8_0 => 32
  | .Q2K => 256 | .Q3K => 256 | .Q4K => 256 | .Q5K => 256 | .Q6K => 256 | .Q8K => 256

/-- `block_bytes` of each format, the §6 layout table. -/
def blockBytes : GgmlDType → ℕ
  | .Q4_0 => 18 | .Q4_1 => 20 | .Q5_0 => 22 | .Q5_1 => 24 | .Q8_0 => 34
  | .Q2K => 84 | .Q3K => 110 | .Q4K => 144 | .Q5K => 176 | .Q6K => 210 | .Q8K => 292

/-- Encode one block of a format to its §6 byte layout. -/
def encodeBlockBytes : GgmlDType → List ℚ → List ℕ
  | .Q4_0, xs => serializeQ4_0 (BlockQ4_0.fromFloatBlock xs)
  | .Q4_1, xs => serializeQ4_1 (BlockQ4_1.fromFloatBlock xs)
  | .Q5_0, xs => serializeQ5_0 (BlockQ5_0.fromFloatBlock xs)
  | .Q5_1, xs => serializeQ5_1 (BlockQ5_1.fromFloatBlock xs)
  | .Q8_0, xs => serializeQ8_0 (BlockQ8_0.fromFloatBlock xs)
  | .Q2K, xs => serializeQ2K (BlockQ2K.fromFloatBlock xs)
  | .Q3K, xs => serializeQ3K (BlockQ3K.fromFloatBlock xs)
  | .Q4K, xs => serializeQ4K (BlockQ4K.fromFloatBlock xs)
  | .Q5K, xs => serializeQ5K (BlockQ5K.fromFloatBlock xs)
  | .Q6K, xs => serializeQ6K (BlockQ6K.fromFloatBlock xs)
  | .Q8K, xs => serializeQ8K (BlockQ8K.fromFloatBlock xs)

/-- Encode a whole vector: split into `block_len` chunks, encode each
block, concatenate the packed bytes (blocks laid out in increasing
order with no padding, §6). -/
def encodeBytes (fmt : GgmlDType) (xs : List ℚ) : List ℕ :=
  ((chunks (blockLen fmt) xs).map (encodeBlockBytes fmt)).flatten

/-! ## Storage dispatch scaffolding (src/storage.rs)

`src/storage.rs` is in the source tree and is embedded directly.  Its
collaborators (`CpuStorage`, `CudaStorage`, `DType`, `Device`, `Error`)
live outside the tree and are modelled from the spec and from how
`storage.rs` uses them; the claims settled below concern only the
dispatch and validation logic of `storage.rs` itself, never the kernel
values. -/

/-- Modelled from the spec: the element dtypes dispatched by the
`UnaryOp`/`BinaryOp` traits of `storage.rs` (`f32` and `f64` kernels). -/
inductive DType where
  | F32 | F64
deriving DecidableEq

/-- Modelled from the spec: `Device::location()` — the CPU, or a CUDA
device identified by its ordinal. -/
inductive DeviceLocation where
  | Cpu | Cuda (gpuId : ℕ)
deriving DecidableEq

/-- Modelled from the spec: the external dense CPU storage (spec §1 treats
the dense runtime as an external collaborator); carries a dtype and its
elements. -/
structure CpuStorage where
  dtype : DType
  data : List ℚ
deriving DecidableEq

/-- Modelled from the spec: the CUDA storage — a device ordinal, a dtype
and elements. -/
structure CudaStorage where
  deviceId : ℕ
  dtype : DType
  data : List ℚ
deriving DecidableEq

/-- The `Storage` enum of `storage.rs`: a CPU or a CUDA variant. -/
inductive Storage where
  | Cpu (s : CpuStorage)
  | Cuda (s : CudaStorage)
deriving DecidableEq

/-- Modelled from the spec: the error variants `storage.rs` constructs —
a binary-op device mismatch carrying both locations and the op name, and
a binary-op dtype mismatch carrying both dtypes and the op name. -/
inductive Error where
  | DeviceMismatchBinaryOp (lhs rhs : DeviceLocation) (op : String)
  | DTypeMismatchBinaryOp (lhs rhs : DType) (op : String)
deriving DecidableEq

/-- Outcome of a `storage.rs` operation: a returned `Ok` value, a returned
`Err`, or the `todo!()` panic of an unimplemented accelerator branch
(which never returns a `Result` at all). -/
inductive Outcome (α : Type) where
  | ok (val : α)
  | err (e : Error)
  | todo
deriving DecidableEq

/-- The `UnaryOp` trait of `storage.rs`: an op name and the `f32`/`f64`
kernels (kernels modelled on ℚ; the claims below never inspect kernel
values). -/
structure UnaryOp where
  name : String
  f32 : ℚ → ℚ
  f64 : ℚ → ℚ

/-- The `BinaryOp` trait of `storage.rs`: an op name, CUDA kernel names
and the `f32`/`f64` kernels. -/
structure BinaryOp where
  name : String
  kernelF32 : String
  kernelF64 : String
  f32 : ℚ → ℚ → ℚ
  f64 : ℚ → ℚ → ℚ

/-- The `Neg` unary op of `storage.rs`. -/
def NegOp : UnaryOp := ⟨"neg", fun v => -v, fun v => -v⟩

/-- The `Sqr` unary op of `storage.rs`. -/
def SqrOp : UnaryOp := ⟨"sqr", fun v => v * v, fun v => v * v⟩

/-- The `Sqrt` unary op of `storage.rs`.  Modelled from the spec: IEEE
square root is irrational off perfect squares, so the kernel is modelled
as the exact square root of the numerator/denominator floors — the
dispatch claims below never evaluate it. -/
def SqrtOp : UnaryOp :=
  let f := fun v : ℚ => ((Nat.sqrt v.num.toNat : ℚ)) / ((Nat.sqrt v.den : ℚ))
  ⟨"sqrt", f, f⟩

/-- The `Add` binary op of `storage.rs`. -/
def AddOp : BinaryOp := ⟨"add", "badd_f32", "badd_f64", (· + ·), (· + ·)⟩

/-- The `Sub` binary op of `storage.rs`. -/
def SubOp : BinaryOp := ⟨"sub", "bsub_f32", "bsub_f64", (· - ·), (· - ·)⟩

/-- The `Mul` binary op of `storage.rs`. -/
def MulOp : BinaryOp := ⟨"mul", "bmul_f32", "bmul_f64", (· * ·), (· * ·)⟩

/-- The `Div` binary op of `storage.rs` (division by zero yields 0 in the
rational model where IEEE would give ±inf/NaN; the dispatch claims below
never evaluate kernels). -/
def DivOp : BinaryOp := ⟨"div", "bdiv_f32", "bdiv_f64", (· / ·), (· / ·)⟩

/-- `Storage::device().location()`: the CPU variant lives on the CPU, the
CUDA variant on its device ordinal. -/
def Storage.deviceLocation : Storage → DeviceLocation
  | .Cpu _ => .Cpu
  | .Cuda s => .Cuda s.deviceId

/-- `Storage::dtype()`. -/
def Storage.dtype : Storage → DType
  | .Cpu s => s.dtype
  | .Cuda s => s.dtype

/-- `Storage::same_device`: `Err(DeviceMismatchBinaryOp)` when the two
device locations differ, `Ok(())` otherwise. -/
def Storage.same_device (self rhs : Storage) (op : String) : Except Error Unit :=
  let lhs := self.deviceLocation
  let rhsLoc := rhs.deviceLocation
  if lhs ≠ rhsLoc then .error (.DeviceMismatchBinaryOp lhs rhsLoc op) else .ok ()

/-- `Storage::same_dtype`: `Err(DTypeMismatchBinaryOp)` when the two
dtypes differ, `Ok(())` otherwise. -/
def Storage.same_dtype (self rhs : Storage) (op : String) : Except Error Unit :=
  let lhs := self.dtype
  let rhsDt := rhs.dtype
  if lhs ≠ rhsDt then .error (.DTypeMismatchBinaryOp lhs rhsDt op) else .ok ()

/-- Modelled from the spec: the external CPU unary kernel — applies the
op's kernel for the storage's dtype elementwise; always total. -/
def CpuStorage.unary_impl (op : UnaryOp) (self : CpuStorage)
    (_shape _stride : List ℕ) : Except Error CpuStorage :=
  .ok { dtype := self.dtype
        data := self.data.map (match self.dtype with | .F32 => op.f32 | .F64 => op.f64) }

/-- Modelled from the spec: the external CPU binary kernel — zips the two
element lists with the op's kernel for the dtype; always total. -/
def CpuStorage.binary_impl (op : BinaryOp) (self rhs : CpuStorage)
    (_shape _lhsStride _rhsStride : List ℕ) : Except Error CpuStorage :=
  .ok { dtype := self.dtype
        data := List.zipWith (match self.dtype with | .F32 => op.f32 | .F64 => op.f64)
          self.data rhs.data }

/-- Modelled from the spec: the external CUDA binary kernel — modelled
total like the CPU one (only the `storage.rs` dispatch is under test). -/
def CudaStorage.binary_impl (op : BinaryOp) (self rhs : CudaStorage)
    (_shape _lhsStride _rhsStride : List ℕ) : Except Error CudaStorage :=
  .ok { deviceId := self.deviceId
        dtype := self.dtype
        data := List.zipWith (match self.dtype with | .F32 => op.f32 | .F64 => op.f64)
          self.data rhs.data }

/-- Modelled from the spec (§4.4): the external dense CPU matmul on
contiguous row-major data — `C[b,i,j] = Σₗ A[b,i,l]·B[b,l,j]` for
`bmnk = (b, m, n, k)`; always total. -/
def CpuStorage.matmul_impl (self rhs : CpuStorage) (bmnk : ℕ × ℕ × ℕ × ℕ)
    (_lhsStride _rhsStride : List ℕ) : Except Error CpuStorage :=
  let (b, m, n, k) := bmnk
  .ok { dtype := self.dtype
        data := (List.range (b * m * n)).map (fun idx =>
          let bi := idx / (m * n)
          let r := idx % (m * n)
          let i := r / n
          let j := r % n
          (List.range k).foldl
            (fun acc l =>
              acc + self.data.getD (bi * m * k + i * k + l) 0 *
                rhs.data.getD (bi * k * n + l * n + j) 0) 0) }

/-- `Storage::unary_impl`: the CPU branch defers to the CPU kernel; the
CUDA branch is `todo!()`. -/
def Storage.unary_impl (op : UnaryOp) (self : Storage)
    (shape stride : List ℕ) : Outcome Storage :=
  match self with
  | .Cpu storage =>
    match storage.unary_impl op shape stride with
    | .ok s => .ok (.Cpu s)
    | .error e => .err e
  | .Cuda _ => .todo

/-- `Storage::binary_impl`: checks `same_device`, then `same_dtype`, then
dispatches on the variant pair; the mixed branch is the defensive
device-mismatch error of the source. -/
def Storage.binary_impl (op : BinaryOp) (self rhs : Storage)
    (shape lhsStride rhsStride : List ℕ) : Outcome Storage :=
  match self.same_device rhs op.name with
  | .error e => .err e
  | .ok _ =>
    match self.same_dtype rhs op.name with
    | .error e => .err e
    | .ok _ =>
      match self, rhs with
      | .Cpu l, .Cpu r =>
        match l.binary_impl op r shape lhsStride rhsStride with
        | .ok s => .ok (.Cpu s)
        | .error e => .err e
      | .Cuda l, .Cuda r =>
        match l.binary_impl op r shape lhsStride rhsStride with
        | .ok s => .ok (.Cuda s)
        | .error e => .err e
      | l, r =>
        .err (.DeviceMismatchBinaryOp l.deviceLocation r.deviceLocation op.name)

/-- `Storage::add_impl`. -/
def Storage.add_impl (self rhs : Storage) (shape lhsStride rhsStride : List ℕ) :
    Outcome Storage :=
  Storage.binary_impl AddOp self rhs shape lhsStride rhsStride

/-- `Storage::sub_impl`. -/
def Storage.sub_impl (self rhs : Storage) (shape lhsStride rhsStride : List ℕ) :
    Outcome Storage :=
  Storage.binary_impl SubOp self rhs shape lhsStride rhsStride

/-- `Storage::mul_impl`. -/
def Storage.mul_impl (self rhs : Storage) (shape lhsStride rhsStride : List ℕ) :
    Outcome Storage :=
  Storage.binary_impl MulOp self rhs shape lhsStride rhsStride

/-- `Storage::div_impl`. -/
def Storage.div_impl (self rhs : Storage) (shape lhsStride rhsStride : List ℕ) :
    Outcome Storage :=
  Storage.binary_impl DivOp self rhs shape lhsStride rhsStride

/-- `Storage::neg_impl`. -/
def Storage.neg_impl (self : Storage) (shape stride : List ℕ) : Outcome Storage :=
  Storage.unary_impl NegOp self shape stride

/-- `Storage::sqr_impl`. -/
def Storage.sqr_impl (self : Storage) (shape stride : List ℕ) : Outcome Storage :=
  Storage.unary_impl SqrOp self shape stride

/-- `Storage::sqrt_impl`. -/
def Storage.sqrt_impl (self : Storage) (shape stride : List ℕ) : Outcome Storage :=
  Storage.unary_impl SqrtOp self shape stride

/-- `Storage::matmul_impl`: checks `same_device` then `same_dtype` with op
name `"matmul"`, dispatches the `(Cpu, Cpu)` pair to the CPU kernel, and
every other pair that survives the checks hits `todo!()`. -/
def Storage.matmul_impl (self rhs : Storage) (bmnk : ℕ × ℕ × ℕ × ℕ)
    (lhsStride rhsStride : List ℕ) : Outcome Storage :=
  match self.same_device rhs "matmul" with
  | .error e => .err e
  | .ok _ =>
    match self.same_dtype rhs "matmul" with
    | .error e => .err e
    | .ok _ =>
      match self, rhs with
      | .Cpu storage, .Cpu rhsStorage =>
        match storage.matmul_impl rhsStorage bmnk lhsStride rhsStride with
        | .ok s => .ok (.Cpu s)
        | .error e => .err e
      | _, _ => .todo


/-! ## Byte-size law -/

/-- Each encoded block serializes to exactly `block_bytes` bytes of the
§6 table, whatever the block contents. -/
theorem encodeBlockBytes_length (fmt : GgmlDType) (xs : List ℚ) :
    (encodeBlockBytes fmt xs).length = blockBytes fmt := by
  cases fmt <;>
    simp [encodeBlockBytes, blockBytes, serializeQ4_0, serializeQ4_1, serializeQ5_0,
      serializeQ5_1, serializeQ8_0, serializeQ2K, serializeQ3K, serializeQ4K, serializeQ5K,
      serializeQ6K, serializeQ8K, f16bytes, f32bytes, bytes2, packNibbles, packHighBits,
      pack2bit, pack4bit, pack6bit16]

/-- With enough fuel, chunking a list whose length is a multiple of `n`
produces `length / n` chunks. -/
theorem chunksAux_length (n : ℕ) (hn : 0 < n) :
    ∀ (fuel : ℕ) (xs : List ℚ), xs.length ≤ fuel → n ∣ xs.length →
      (chunksAux fuel n xs).length = xs.length / n := by
  intro fuel
  induction fuel with
  | zero =>
    intro xs hle _
    have h0 : xs = [] := List.eq_nil_of_length_eq_zero (Nat.le_zero.mp hle)
    subst h0
    simp [chunksAux]
  | succ fuel ih =>
    intro xs hle hdvd
    match xs with
    | [] => simp [chunksAux]
    | x :: t =>
      have hlen : n ≤ (x :: t).length := Nat.le_of_dvd (by simp) hdvd
      have hdrop : ((x :: t).drop n).length = (x :: t).length - n := by
        simp [List.length_drop]
      have hdvd2 : n ∣ ((x :: t).drop n).length := by
        rw [hdrop]
        exact Nat.dvd_sub' hdvd (dvd_refl n)
      have hle2 : ((x :: t).drop n).length ≤ fuel := by
        rw [hdrop]
        simp at hle ⊢
        omega
      have hx : (x :: t).length = ((x :: t).length - n) + n := by omega
      calc (chunksAux (fuel + 1) n (x :: t)).length
          = (chunksAux fuel n ((x :: t).drop n)).length + 1 := by
            simp [chunksAux]
        _ = ((x :: t).length - n) / n + 1 := by rw [ih _ hle2 hdvd2, hdrop]
        _ = (((x :: t).length - n) + n) / n := (Nat.add_div_right _ hn).symm
        _ = (x :: t).length / n := by rw [← hx]

/-- Chunking a list whose length is a multiple of `n > 0` produces
`length / n` chunks. -/
theorem chunks_length (n : ℕ) (hn : 0 < n) (xs : List ℚ) (h : n ∣ xs.length) :
    (chunks n xs).length = xs.length / n :=
  chunksAux_length n hn xs.length xs (le_refl _) h

/-- C6: for every format `F` and every input whose length is a multiple of
`F`'s `block_len`, the encoded output occupies exactly
`(len(x)/block_len) · block_bytes` bytes, with the exact per-format
`block_bytes` of the §6 layout table: Q4_0 = 18, Q4_1 = 20, Q5_0 = 22,
Q5_1 = 24, Q8_0 = 34, Q2K = 84, Q3K = 110, Q4K = 144, Q5K = 176,
Q6K = 210, Q8K = 292. -/
theorem byte_size_law :
    (∀ (fmt : GgmlDType) (xs : List ℚ), blockLen fmt ∣ xs.length →
      (encodeBytes fmt xs).length = xs.length / blockLen fmt * blockBytes fmt) ∧
    blockBytes .Q4_0 = 18 ∧ blockBytes .Q4_1 = 20 ∧ blockBytes .Q5_0 = 22 ∧
    blockBytes .Q5_1 = 24 ∧ blockBytes .Q8_0 = 34 ∧ blockBytes .Q2K = 84 ∧
    blockBytes .Q3K = 110 ∧ blockBytes .Q4K = 144 ∧ blockBytes .Q5K = 176 ∧
    blockBytes .Q6K = 210 ∧ blockBytes .Q8K = 292 := by
  refine ⟨fun fmt xs h => ?_, rfl, rfl, rfl, rfl, rfl, rfl, rfl, rfl, rfl, rfl, rfl⟩
  have hpos : 0 < blockLen fmt := by cases fmt <;> simp [blockLen]
  simp only [encodeBytes, List.length_flatten, List.map_map]
  have hmap : ((chunks (blockLen fmt) xs).map (List.length ∘ encodeBlockBytes fmt)) =
      (chunks (blockLen fmt) xs).map (fun _ => blockBytes fmt) := by
    apply List.map_congr_left
    intro b _
    exact encodeBlockBytes_length fmt b
  rw [hmap, List.map_const']
  simp [List.sum_replicate, chunks_length _ hpos _ h, Nat.mul_comm, smul_eq_mul]

/-- Witness for C6: the byte-size law applied to a concrete two-block
Q4_0 input of 64 elements. -/
theorem byte_size_law_witness :
    (encodeBytes GgmlDType.Q4_0 (List.replicate 64 (0 : ℚ))).length =
      (List.replicate 64 (0 : ℚ)).length / blockLen GgmlDType.Q4_0 *
        blockBytes GgmlDType.Q4_0 :=
  byte_size_law.1 GgmlDType.Q4_0 (List.replicate 64 (0 : ℚ))
    (by simp only [blockLen, List.length_replicate]; decide)

set_option maxRecDepth 100000 in
/-- C4: round-tripping `x = [0.0, 1.0, …, 127.0]` through the Q4_0 codec
(four 32-element blocks encoded by `from_float`, then decoded by
`to_float`) yields exactly the literal 128-element vector of the
`quantize_q4_0` source test — repeated steps of 3.875, beginning
`[-0.0, -0.0, 3.875, 3.875, …]` and ending `[…, 127.0]`. -/
theorem q4_0_ramp_roundtrip_eq :
    q4_0RoundTrip (rampQ 128) = q4_0ExpectedRamp := by
  with_unfolding_all rfl

set_option maxRecDepth 100000 in
/-- C5: round-tripping `x = [0.0, 1.0, …, 127.0]` through the Q5_1 codec
(`from_float` then `to_float`) reconstructs the input exactly: the
asymmetric 5-bit quantization is lossless on this integer ramp. -/
theorem q5_1_ramp_roundtrip_exact :
    q5_1RoundTrip (rampQ 128) = rampQ 128 := by
  with_unfolding_all rfl

/-! ## Accelerator path and operand validation (src/storage.rs) -/

/-- C8 counterexample: `matmul_impl` on the mixed pair `(Cpu, Cuda)` does
NOT reach `todo!()` — `same_device` returns
`Err(DeviceMismatchBinaryOp)` first, so the claim that every
non-`(Cpu, Cpu)` pair reaches `todo!()` fails at this input. -/
theorem matmul_mixed_pair_returns_result :
    Storage.matmul_impl (.Cpu ⟨.F32, [1]⟩) (.Cuda ⟨0, .F32, [1]⟩) (1, 1, 1, 1) [] [] =
      .err (.DeviceMismatchBinaryOp .Cpu (.Cuda 0) "matmul") ∧
    Storage.matmul_impl (.Cpu ⟨.F32, [1]⟩) (.Cuda ⟨0, .F32, [1]⟩) (1, 1, 1, 1) [] [] ≠
      .todo :=
  ⟨rfl, by decide⟩

/-- C8 (amended): `unary_impl` (hence `neg_impl`, `sqr_impl`,
`sqrt_impl`) reaches `todo!()` on every Cuda storage; `matmul_impl`
reaches `todo!()` exactly on the non-`(Cpu, Cpu)` pairs that pass the
device-location and dtype checks (in particular `(Cuda, Cuda)` pairs on
the same device with the same dtype), while pairs on different device
locations return `Err(DeviceMismatchBinaryOp)` instead; the `(Cpu, Cpu)`
path never panics. -/
theorem cuda_path_unimplemented :
    (∀ (c : CudaStorage) (op : UnaryOp) (shape stride : List ℕ),
      Storage.unary_impl op (.Cuda c) shape stride = .todo) ∧
    (∀ (c : CudaStorage) (shape stride : List ℕ),
      Storage.neg_impl (.Cuda c) shape stride = .todo ∧
      Storage.sqr_impl (.Cuda c) shape stride = .todo ∧
      Storage.sqrt_impl (.Cuda c) shape stride = .todo) ∧
    (∀ (a b : CudaStorage) (bmnk : ℕ × ℕ × ℕ × ℕ) (ls rs : List ℕ),
      a.deviceId = b.deviceId → a.dtype = b.dtype →
      Storage.matmul_impl (.Cuda a) (.Cuda b) bmnk ls rs = .todo) ∧
    (∀ (s t : Storage) (bmnk : ℕ × ℕ × ℕ × ℕ) (ls rs : List ℕ),
      s.deviceLocation ≠ t.deviceLocation →
      Storage.matmul_impl s t bmnk ls rs =
        .err (.DeviceMismatchBinaryOp s.deviceLocation t.deviceLocation "matmul")) ∧
    (∀ (a b : CpuStorage) (bmnk : ℕ × ℕ × ℕ × ℕ) (ls rs : List ℕ),
      Storage.matmul_impl (.Cpu a) (.Cpu b) bmnk ls rs ≠ .todo) := by
  refine ⟨fun c op shape stride => rfl, fun c shape stride => ⟨rfl, rfl, rfl⟩,
    fun a b bmnk ls rs hid hdt => ?_, fun s t bmnk ls rs h => ?_, fun a b bmnk ls rs => ?_⟩
  · simp [Storage.matmul_impl, Storage.same_device, Storage.same_dtype,
      Storage.deviceLocation, Storage.dtype, hid, hdt]
  · simp [Storage.matmul_impl, Storage.same_device, h]
  · by_cases hdt : a.dtype = b.dtype
    · simp [Storage.matmul_impl, Storage.same_device, Storage.same_dtype,
        Storage.deviceLocation, Storage.dtype, hdt, CpuStorage.matmul_impl]
    · simp [Storage.matmul_impl, Storage.same_device, Storage.same_dtype,
        Storage.deviceLocation, Storage.dtype, hdt]

/-- Witness for the amended C8 at concrete storages: a Cuda unary op
panics, a same-device same-dtype Cuda matmul panics, a mixed matmul
returns the device-mismatch error, and a Cpu matmul does not panic. -/
theorem cuda_path_unimplemented_witness :
    Storage.unary_impl NegOp (.Cuda ⟨0, .F32, []⟩) [] [] = .todo ∧
    Storage.matmul_impl (.Cuda ⟨1, .F64, []⟩) (.Cuda ⟨1, .F64, []⟩) (1, 1, 1, 1) [] [] =
      .todo ∧
    Storage.matmul_impl (.Cpu ⟨.F32, []⟩) (.Cuda ⟨0, .F32, []⟩) (1, 1, 1, 1) [] [] =
      .err (.DeviceMismatchBinaryOp .Cpu (.Cuda 0) "matmul") ∧
    Storage.matmul_impl (.Cpu ⟨.F32, []⟩) (.Cpu ⟨.F32, []⟩) (1, 1, 1, 1) [] [] ≠ .todo :=
  ⟨cuda_path_unimplemented.1 ⟨0, .F32, []⟩ NegOp [] [],
   cuda_path_unimplemented.2.2.1 ⟨1, .F64, []⟩ ⟨1, .F64, []⟩ (1, 1, 1, 1) [] [] rfl rfl,
   cuda_path_unimplemented.2.2.2.1 (.Cpu ⟨.F32, []⟩) (.Cuda ⟨0, .F32, []⟩)
     (1, 1, 1, 1) [] [] (by decide),
   cuda_path_unimplemented.2.2.2.2 ⟨.F32, []⟩ ⟨.F32, []⟩ (1, 1, 1, 1) [] []⟩

/-- A `binary_impl` call on operands whose device locations differ returns
the device-mismatch error of `same_device` before any computation. -/
theorem binary_impl_device_mismatch (op : BinaryOp) (lhs rhs : Storage)
    (shape ls rs : List ℕ) (h : lhs.deviceLocation ≠ rhs.deviceLocation) :
    Storage.binary_impl op lhs rhs shape ls rs =
      .err (.DeviceMismatchBinaryOp lhs.deviceLocation rhs.deviceLocation op.name) := by
  simp [Storage.binary_impl, Storage.same_device, h]

/-- A `binary_impl` call on same-device operands whose dtypes differ
returns the dtype-mismatch error of `same_dtype`. -/
theorem binary_impl_dtype_mismatch (op : BinaryOp) (lhs rhs : Storage)
    (shape ls rs : List ℕ) (hdev : lhs.deviceLocation = rhs.deviceLocation)
    (h : lhs.dtype ≠ rhs.dtype) :
    Storage.binary_impl op lhs rhs shape ls rs =
      .err (.DTypeMismatchBinaryOp lhs.dtype rhs.dtype op.name) := by
  simp [Storage.binary_impl, Storage.same_device, Storage.same_dtype, hdev, h]

/-- C9: every binary Storage operation (`add_impl`, `sub_impl`,
`mul_impl`, `div_impl` via `binary_impl`, and `matmul_impl`) validates
its operands first: differing device locations yield
`Err(DeviceMismatchBinaryOp)` carrying both locations and the op name
(whatever the dtypes, since the device check runs first), and matching
devices with differing dtypes yield `Err(DTypeMismatchBinaryOp)`
carrying both dtypes and the op name. -/
theorem binary_ops_validate_device_then_dtype (lhs rhs : Storage)
    (shape ls rs : List ℕ) (bmnk : ℕ × ℕ × ℕ × ℕ) :
    (lhs.deviceLocation ≠ rhs.deviceLocation →
      Storage.add_impl lhs rhs shape ls rs =
        .err (.DeviceMismatchBinaryOp lhs.deviceLocation rhs.deviceLocation "add") ∧
      Storage.sub_impl lhs rhs shape ls rs =
        .err (.DeviceMismatchBinaryOp lhs.deviceLocation rhs.deviceLocation "sub") ∧
      Storage.mul_impl lhs rhs shape ls rs =
        .err (.DeviceMismatchBinaryOp lhs.deviceLocation rhs.deviceLocation "mul") ∧
      Storage.div_impl lhs rhs shape ls rs =
        .err (.DeviceMismatchBinaryOp lhs.deviceLocation rhs.deviceLocation "div") ∧
      Storage.matmul_impl lhs rhs bmnk ls rs =
        .err (.DeviceMismatchBinaryOp lhs.deviceLocation rhs.deviceLocation "matmul")) ∧
    (lhs.deviceLocation = rhs.deviceLocation → lhs.dtype ≠ rhs.dtype →
      Storage.add_impl lhs rhs shape ls rs =
        .err (.DTypeMismatchBinaryOp lhs.dtype rhs.dtype "add") ∧
      Storage.sub_impl lhs rhs shape ls rs =
        .err (.DTypeMismatchBinaryOp lhs.dtype rhs.dtype "sub") ∧
      Storage.mul_impl lhs rhs shape ls rs =
        .err (.DTypeMismatchBinaryOp lhs.dtype rhs.dtype "mul") ∧
      Storage.div_impl lhs rhs shape ls rs =
        .err (.DTypeMismatchBinaryOp lhs.dtype rhs.dtype "div") ∧
      Storage.matmul_impl lhs rhs bmnk ls rs =
        .err (.DTypeMismatchBinaryOp lhs.dtype rhs.dtype "matmul")) := by
  constructor
  · intro h
    refine ⟨binary_impl_device_mismatch _ _ _ _ _ _ h,
      binary_impl_device_mismatch _ _ _ _ _ _ h,
      binary_impl_device_mismatch _ _ _ _ _ _ h,
      binary_impl_device_mismatch _ _ _ _ _ _ h, ?_⟩
    simp [Storage.matmul_impl, Storage.same_device, h]
  · intro hdev h
    refine ⟨binary_impl_dtype_mismatch _ _ _ _ _ _ hdev h,
      binary_impl_dtype_mismatch _ _ _ _ _ _ hdev h,
      binary_impl_dtype_mismatch _ _ _ _ _ _ hdev h,
      binary_impl_dtype_mismatch _ _ _ _ _ _ hdev h, ?_⟩
    simp [Storage.matmul_impl, Storage.same_device, Storage.same_dtype, hdev, h]

/-- Witness for C9 at concrete storages: a `(Cpu, Cuda)` add returns the
device-mismatch error and an `(F32, F64)` CPU add returns the
dtype-mismatch error. -/
theorem binary_ops_validate_witness :
    Storage.add_impl (.Cpu ⟨.F32, []⟩) (.Cuda ⟨0, .F32, []⟩) [] [] [] =
      .err (.DeviceMismatchBinaryOp .Cpu (.Cuda 0) "add") ∧
    Storage.add_impl (.Cpu ⟨.F32, []⟩) (.Cpu ⟨.F64, []⟩) [] [] [] =
      .err (.DTypeMismatchBinaryOp .F32 .F64 "add") :=
  ⟨((binary_ops_validate_device_then_dtype (.Cpu ⟨.F32, []⟩) (.Cuda ⟨0, .F32, []⟩)
      [] [] [] (1, 1, 1, 1)).1 (by decide)).1,
   ((binary_ops_validate_device_then_dtype (.Cpu ⟨.F32, []⟩) (.Cpu ⟨.F64, []⟩)
      [] [] [] (1, 1, 1, 1)).2 rfl (by decide)).1⟩

end Candle
